import Mathlib

/-!
Verification of the `query_videos` search adapter
(`src/video_query_mcp/server.py`).

The adapter is shallowly embedded as pure Lean functions.  Python strings
are modelled as Lean `String` (both are sequences of Unicode code points:
Python slicing `s[:n]` is `List.take n` on `String.data`, `c in s` for a
one-character pattern is list membership of the character).  The single
outbound HTTP POST is modelled by an oracle argument `HttpResult`
describing how the remote call behaves: it either raises an exception
(network failure, timeout, ...) carrying its textual description, or
yields a response with a status code, a raw body text, and a JSON-parse
outcome.  Python exceptions are modelled with `Except String`, the error
carrying `str(e)`; a missing dictionary key `k` raises `KeyError(k)`,
whose textual description in Python is the key wrapped in single quotes.

Floating point is not shallowly embeddable: the clip relevance score is
carried as the already-rendered decimal text of the Python expression
`f"\x7bclip['score']:.3f\x7d"`; no claim under verification depends on
the numeric value of a score.
-/

/-- Python `s[:n]`: the first `n` code points of `s` (all of `s` when it is
shorter). -/
def pyTake (s : String) (n : Nat) : String := String.mk (s.data.take n)

/-- A clip record of the remote JSON response body.  Each field is
`Option`al: `none` models the key being absent from the JSON object, in
which case the subscript access in the source raises `KeyError`.
`score_str` carries the rendered `:.3f` text of the float score. -/
structure Clip where
  chunk_id : Option String
  description : Option String
  expires_at : Option String
  score_str : Option String
  url : Option String
  video_id : Option String
deriving DecidableEq, Repr

/-- The parsed JSON response object.  `clips = none` models a JSON object
with no `"clips"` key; the source reads it with `data.get("clips", [])`,
defaulting to the empty list. -/
structure RespData where
  clips : Option (List Clip)
deriving DecidableEq, Repr

/-- Behaviour of the single outbound HTTP POST:
`raisedExn msg` — `client.post` (or the timeout) raised an exception whose
textual description is `msg`;
`resp status text body` — a response arrived with the given status code and
raw body text, and `body` is the outcome of `response.json()`
(`Except.error msg` when the body is malformed JSON and parsing raises). -/
inductive HttpResult where
  | raisedExn (msg : String)
  | resp (status : Nat) (text : String) (body : Except String RespData)

/-- The JSON body transmitted by the POST (source lines 43-47). -/
structure SearchRequest where
  user_id : String
  query : String
  top_k : Int
deriving DecidableEq, Repr

/-- `top_k := min(max_results, 15)` — the request body built at source
lines 43-47 ("Limit to 15 as requested"). -/
def buildRequest (user_id query : String) (max_results : Int) : SearchRequest :=
  { user_id := user_id, query := query, top_k := min max_results 15 }

/-- Python dictionary subscript `clip[key]`: the value when the key is
present, otherwise the `KeyError` exception whose `str` is the key in
single quotes. -/
def getKey (v : Option α) (key : String) : Except String α :=
  match v with
  | some x => Except.ok x
  | none => Except.error ("'" ++ key ++ "'")

/-- Source line 65: `clip['expires_at'][:19] if 'T' in clip['expires_at']
else clip['expires_at']` — truncate to the first 19 code points when the
string contains the date/time separator `T`, else pass through. -/
def expiresDisplay (s : String) : String :=
  if 'T' ∈ s.data then pyTake s 19 else s

/-- Source lines 73-74: the displayed form of `video_id` and `chunk_id` is
`s[:8]` followed by the literal ellipsis `...` of the f-string — the
ellipsis is appended unconditionally, whatever the length of `s`. -/
def idDisplay (s : String) : String := pyTake s 8 ++ "..."

/-- One formatted result block (source lines 68-75), for 1-based rank `i`.
Field accesses happen in source order (`chunk_id`, `description`,
`expires_at`, then the f-string: `score`, `url`, `video_id`); the first
missing key aborts the block with its `KeyError`. -/
def formatClip (i : Nat) (clip : Clip) : Except String String := do
  let chunk_id ← getKey clip.chunk_id "chunk_id"
  let description ← getKey clip.description "description"
  let expires_at ← getKey clip.expires_at "expires_at"
  let expires_str := expiresDisplay expires_at
  let score ← getKey clip.score_str "score"
  let url ← getKey clip.url "url"
  let video_id ← getKey clip.video_id "video_id"
  Except.ok (Nat.repr i ++ ". **Relevance Score: " ++ score ++ "**\n" ++
    "   📄 **AI Description:** " ++ description ++ "\n" ++
    "   📹 **Video URL:** " ++ url ++ "\n" ++
    "   ⏰ **URL Expires:** " ++ expires_str ++ "\n" ++
    "   🎬 **Video ID:** " ++ idDisplay video_id ++ "\n" ++
    "   📝 **Chunk ID:** " ++ idDisplay chunk_id)

/-- The loop `for i, clip in enumerate(clips[:15], 1)` (source line 62),
started at rank `i`: formats each clip in order, collecting the blocks,
aborting at the first raised `KeyError`. -/
def formatClipsFrom (i : Nat) : List Clip → Except String (List String)
  | [] => Except.ok []
  | c :: cs => do
    let b ← formatClip i c
    let rest ← formatClipsFrom (i + 1) cs
    Except.ok (b :: rest)

/-- Fixed prefix of the no-results message (source line 57). -/
def noResultsPre : String := "No video clips found for query: '"

/-- Fixed suffix of the no-results message (source line 57). -/
def noResultsSuf : String :=
  "'\n\nThis could mean:\n• No videos have been uploaded for this user\n• The query doesn't match any video content\n• Try using different search terms or keywords"

/-- The no-results message (source line 57): the query text between the
fixed prefix and suffix. -/
def noResultsMsg (query : String) : String := noResultsPre ++ query ++ noResultsSuf

/-- Fixed header prefix (source line 80). -/
def headerPre : String := "🎯 **Found "

/-- Fixed header text between the clip count and the query (line 80). -/
def headerMid : String := " relevant video clips for query:** '"

/-- Fixed header suffix (source lines 80-81). -/
def headerSuf : String :=
  "'\n\n📊 **Results sorted by relevance score (higher = more relevant)**\n\n"

/-- The summary header (source lines 79-82): reports `len(clips)` — the
full count of returned clips — and the original query. -/
def summaryHeader (count : Nat) (query : String) : String :=
  headerPre ++ Nat.repr count ++ headerMid ++ query ++ headerSuf

/-- The fixed usage-tips block appended to every success summary (source
lines 84-90). -/
def usageTips : String :=
  "💡 **Usage Tips:**\n• Read the AI-generated descriptions to understand video content before clicking\n• Click video URLs to view the actual clips\n• URLs expire after the specified time - use them promptly\n• Each video segment represents approximately 30 seconds of content\n• Descriptions include both visual content analysis and audio transcription"

/-- The static troubleshooting checklist of the catch-all handler (source
line 93). -/
def troubleshootChecklist : String :=
  "Please ensure:\n• Your user_id is configured correctly\n• The video processing API is accessible\n• You have internet connectivity"

/-- The body of the `try` block of `query_videos` (source lines 34-90):
`Except.ok s` models `return s`, `Except.error e` models an exception with
textual description `e` escaping to the `except` handler.  `http` maps the
transmitted request to the behaviour of the remote call. -/
def tryBody (user_id query : String) (max_results : Int)
    (http : SearchRequest → HttpResult) : Except String String :=
  if user_id = "" then Except.ok "Error: User ID is required in configuration"
  else
    match http (buildRequest user_id query max_results) with
    | HttpResult.raisedExn msg => Except.error msg
    | HttpResult.resp status text body =>
      if status ≠ 200 then
        Except.ok ("Error querying videos: " ++ Nat.repr status ++ " - " ++ text)
      else do
        let data ← body
        let clips := data.clips.getD []
        if clips.isEmpty then Except.ok (noResultsMsg query)
        else do
          let results ← formatClipsFrom 1 (clips.take 15)
          Except.ok (summaryHeader clips.length query ++
            String.intercalate "\n\n" results ++ "\n\n" ++ usageTips)

/-- What one invocation of the tool produced: the string returned to the
caller and the list of network requests issued during the call. -/
structure QueryOutcome where
  result : String
  requests : List SearchRequest
deriving DecidableEq, Repr

/-- The `query_videos` tool (source lines 30-93).  `max_results` defaults
to 10 at the Python signature; here it is always passed explicitly.
`http` is the behaviour of the one outbound POST.  The empty-`user_id`
guard returns before any request is issued; otherwise exactly one request
(the body of source lines 43-47) is posted, and the `except` handler at
lines 92-93 converts any exception into the catch-all error string. -/
def query_videos (user_id query : String) (max_results : Int)
    (http : SearchRequest → HttpResult) : QueryOutcome :=
  { result :=
      match tryBody user_id query max_results http with
      | Except.ok s => s
      | Except.error e =>
        "Error searching videos: " ++ e ++ "\n\n" ++ troubleshootChecklist
    requests :=
      if user_id = "" then [] else [buildRequest user_id query max_results] }

/-- All six required keys are present in the clip record, so formatting it
raises no `KeyError`. -/
def wellFormed (c : Clip) : Bool :=
  c.chunk_id.isSome && c.description.isSome && c.expires_at.isSome &&
    c.score_str.isSome && c.url.isSome && c.video_id.isSome

/-- The block `formatClip` yields for a well-formed clip, written as a
total function of the record (fields read with a default that is never
used when the clip is well-formed). -/
def blockOf (i : Nat) (c : Clip) : String :=
  Nat.repr i ++ ". **Relevance Score: " ++ c.score_str.getD "" ++ "**\n" ++
    "   📄 **AI Description:** " ++ c.description.getD "" ++ "\n" ++
    "   📹 **Video URL:** " ++ c.url.getD "" ++ "\n" ++
    "   ⏰ **URL Expires:** " ++ expiresDisplay (c.expires_at.getD "") ++ "\n" ++
    "   🎬 **Video ID:** " ++ idDisplay (c.video_id.getD "") ++ "\n" ++
    "   📝 **Chunk ID:** " ++ idDisplay (c.chunk_id.getD "")

/-- The 1-based rank marker that opens the formatted block of rank `i`. -/
def rankMarker (i : Nat) : String := Nat.repr i ++ ". **Relevance Score: "

/-- `p` is an initial segment of `l`. -/
def prefixAt : List Char → List Char → Bool
  | [], _ => true
  | _ :: _, [] => false
  | a :: as, b :: bs => a == b && prefixAt as bs

/-- `p` occurs as a contiguous segment of `l`. -/
def occursB (p : List Char) : List Char → Bool
  | [] => p.isEmpty
  | c :: cs => prefixAt p (c :: cs) || occursB p cs

/-- `pat` occurs as a contiguous substring of `s` (decidable by
computation). -/
abbrev strContains (s pat : String) : Prop := occursB pat.data s.data = true

/-- A concrete well-formed clip record whose `video_id` is shorter than 8
characters. -/
def shortIdClip : Clip :=
  { chunk_id := some "chunk123", description := some "d",
    expires_at := some "2025-01-02T03:04:05", score_str := some "0.500",
    url := some "https://x", video_id := some "abc" }

/-- A concrete well-formed clip record, used to instantiate theorems at
concrete inputs. -/
def sampleClip : Clip :=
  { chunk_id := some "chunk-aaaa-bbbb", description := some "a cat on a mat",
    expires_at := some "2025-01-02T03:04:05.123456", score_str := some "0.842",
    url := some "https://example.com/clip.mp4", video_id := some "vid-1234-5678" }

theorem prefixAt_iff (p : List Char) : ∀ l, prefixAt p l = true ↔ ∃ t, l = p ++ t := by
  induction p with
  | nil => intro l; simp [prefixAt]
  | cons a as ih =>
    intro l
    cases l with
    | nil => simp [prefixAt]
    | cons b bs =>
      constructor
      · intro h
        simp only [prefixAt, Bool.and_eq_true, beq_iff_eq] at h
        obtain ⟨t, ht⟩ := (ih bs).mp h.2
        exact ⟨t, by simp [List.cons_append, ht, h.1]⟩
      · rintro ⟨t, ht⟩
        rcases List.cons_eq_cons.mp (by simpa using ht) with ⟨h1, h2⟩
        simp only [prefixAt, Bool.and_eq_true, beq_iff_eq]
        exact ⟨h1.symm, (ih bs).mpr ⟨t, h2⟩⟩

theorem occursB_iff (p : List Char) : ∀ l, occursB p l = true ↔ ∃ a b, l = a ++ p ++ b := by
  intro l
  induction l with
  | nil =>
    constructor
    · intro h
      have hp : p = [] := by
        cases p with
        | nil => rfl
        | cons x xs => simp [occursB, List.isEmpty] at h
      exact ⟨[], [], by simp [hp]⟩
    · rintro ⟨a, b, hab⟩
      rcases List.append_eq_nil.mp hab.symm with ⟨h1, _⟩
      have hp : p = [] := (List.append_eq_nil.mp h1).2
      simp [occursB, hp, List.isEmpty]
  | cons c cs ih =>
    simp [occursB, prefixAt_iff, ih]
    constructor
    · rintro (⟨t, ht⟩ | ⟨a, b, hab⟩)
      · exact ⟨[], t, by simp [ht]⟩
      · exact ⟨c :: a, b, by simp [hab]⟩
    · rintro ⟨a, b, hab⟩
      cases a with
      | nil => exact Or.inl ⟨b, by simpa using hab⟩
      | cons x xs =>
        rcases List.cons_eq_cons.mp (by simpa using hab) with ⟨h1, h2⟩
        exact Or.inr ⟨xs, b, by simp [h2]⟩

theorem strContains_iff (s p : String) :
    strContains s p ↔ ∃ a b, s.data = a ++ p.data ++ b := occursB_iff p.data s.data

theorem strContains_of_data (s p : String) (a b : List Char)
    (h : s.data = a ++ p.data ++ b) : strContains s p :=
  (strContains_iff s p).mpr ⟨a, b, h⟩

theorem mem_of_strContains {s p : String} {c : Char} (h : strContains s p)
    (hc : c ∈ p.data) : c ∈ s.data := by
  obtain ⟨x, y, hxy⟩ := (strContains_iff s p).mp h
  rw [hxy]
  exact List.mem_append.mpr (Or.inl (List.mem_append.mpr (Or.inr hc)))

/-- C1: `query_videos` never propagates an exception: it is a total
function into strings, and whenever an exception with description `e` is
raised anywhere inside the `try` block (network failure, timeout,
malformed JSON, missing clip field — all the `Except.error` outcomes of
`tryBody`), the returned string is the exception's textual description
framed by the catch-all prefix and followed by the static troubleshooting
checklist. -/
theorem C1_catch_all (u q : String) (mr : Int) (http : SearchRequest → HttpResult)
    (e : String) (h : tryBody u q mr http = Except.error e) :
    (query_videos u q mr http).result =
      "Error searching videos: " ++ e ++ "\n\n" ++ troubleshootChecklist ∧
    strContains (query_videos u q mr http).result e ∧
    strContains (query_videos u q mr http).result troubleshootChecklist := by
  have hr : (query_videos u q mr http).result =
      "Error searching videos: " ++ e ++ "\n\n" ++ troubleshootChecklist := by
    simp [query_videos, h]
  refine ⟨hr,
    strContains_of_data _ _ "Error searching videos: ".data
      ("\n\n".data ++ troubleshootChecklist.data) ?_,
    strContains_of_data _ _
      ("Error searching videos: ".data ++ e.data ++ "\n\n".data) [] ?_⟩ <;>
    rw [hr] <;> simp [String.data_append, List.append_assoc]

/-- Witness for C1 at a concrete raised exception. -/
theorem C1_catch_all_witness :
    (query_videos "u1" "cats" 10
        (fun _ => HttpResult.raisedExn "Connection timeout")).result =
      "Error searching videos: " ++ "Connection timeout" ++ "\n\n" ++
        troubleshootChecklist ∧
    strContains
      (query_videos "u1" "cats" 10
        (fun _ => HttpResult.raisedExn "Connection timeout")).result
      "Connection timeout" ∧
    strContains
      (query_videos "u1" "cats" 10
        (fun _ => HttpResult.raisedExn "Connection timeout")).result
      troubleshootChecklist :=
  C1_catch_all "u1" "cats" 10 (fun _ => HttpResult.raisedExn "Connection timeout")
    "Connection timeout" rfl

/-- C2: with an empty `user_id` in the session configuration the
operation returns exactly the string
`"Error: User ID is required in configuration"` (so in particular a
string beginning with it) and issues zero network requests. -/
theorem C2_empty_user (u q : String) (mr : Int) (http : SearchRequest → HttpResult)
    (h : u = "") :
    (query_videos u q mr http).result =
      "Error: User ID is required in configuration" ∧
    (query_videos u q mr http).requests = [] := by
  subst h
  exact ⟨by simp [query_videos, tryBody], by simp [query_videos]⟩

/-- Witness for C2 at a concrete call. -/
theorem C2_empty_user_witness :
    (query_videos "" "cats" 10 (fun _ => HttpResult.raisedExn "net down")).result =
      "Error: User ID is required in configuration" ∧
    (query_videos "" "cats" 10 (fun _ => HttpResult.raisedExn "net down")).requests
      = [] :=
  C2_empty_user "" "cats" 10 (fun _ => HttpResult.raisedExn "net down") rfl

/-- C3: with a non-empty `user_id` exactly one request is transmitted and
its `top_k` equals `min max_results 15`: above 15 it is clamped to 15, in
`[1, 15]` it is `max_results` itself, and a non-positive `max_results` is
forwarded unchanged (no lower-bound clamp). -/
theorem C3_top_k (u q : String) (mr : Int) (http : SearchRequest → HttpResult)
    (h : u ≠ "") :
    (query_videos u q mr http).requests = [buildRequest u q mr] ∧
    (buildRequest u q mr).top_k = min mr 15 ∧
    (15 < mr → (buildRequest u q mr).top_k = 15) ∧
    (1 ≤ mr → mr ≤ 15 → (buildRequest u q mr).top_k = mr) ∧
    (mr ≤ 0 → (buildRequest u q mr).top_k = mr) := by
  refine ⟨by simp [query_videos, h], rfl, ?_, ?_, ?_⟩ <;>
    simp [buildRequest] <;> omega

/-- Witness for C3 at `max_results = 20`. -/
theorem C3_top_k_witness :
    (query_videos "u1" "cats" 20
        (fun _ => HttpResult.raisedExn "net down")).requests =
      [buildRequest "u1" "cats" 20] ∧
    (buildRequest "u1" "cats" 20).top_k = 15 :=
  ⟨(C3_top_k "u1" "cats" 20 (fun _ => HttpResult.raisedExn "net down")
      (by decide)).1,
   (C3_top_k "u1" "cats" 20 (fun _ => HttpResult.raisedExn "net down")
      (by decide)).2.2.1 (by decide)⟩

/-- C4 counterexample: the claim that the transmitted `top_k` always lies
in `[1, 15]` is false — at `max_results = 0` the operation transmits a
request whose `top_k` is `0` (no lower-bound clamp exists in the code). -/
theorem C4_range_counterexample :
    ∃ r ∈ (query_videos "user1" "cats" 0
        (fun _ => HttpResult.raisedExn "net down")).requests,
      ¬ (1 ≤ r.top_k ∧ r.top_k ≤ 15) := by
  refine ⟨buildRequest "user1" "cats" 0, ?_, ?_⟩
  · simp [query_videos]
  · decide

/-- C4 as amended: the transmitted `top_k` is always at most 15, and it
lies in `[1, 15]` whenever the caller-requested `max_results` is at least
1; a non-positive `max_results` is transmitted unchanged, below the
range. -/
theorem C4_range_amended (u q : String) (mr : Int) (http : SearchRequest → HttpResult)
    (h : u ≠ "") :
    ∀ r ∈ (query_videos u q mr http).requests,
      r.top_k ≤ 15 ∧ (1 ≤ mr → 1 ≤ r.top_k) := by
  intro r hr
  simp [query_videos, h] at hr
  subst hr
  refine ⟨?_, fun h1 => ?_⟩
  · simp [buildRequest]
  · simp [buildRequest]
    omega

/-- Witness for the amended C4 at `max_results = 3`. -/
theorem C4_range_amended_witness :
    (buildRequest "u1" "cats" 3).top_k ≤ 15 ∧
    (1 ≤ (3 : Int) → 1 ≤ (buildRequest "u1" "cats" 3).top_k) :=
  C4_range_amended "u1" "cats" 3 (fun _ => HttpResult.raisedExn "x") (by decide)
    (buildRequest "u1" "cats" 3) (by simp [query_videos])

/-- C5: for every response with a status code other than 200 the result
is the error string embedding the numeric status code and the raw
response body verbatim, and no JSON parsing is attempted: the outcome of
the call is independent of the JSON-parse component of the response. -/
theorem C5_non200 (u q : String) (mr : Int)
    (http http' : SearchRequest → HttpResult) (status : Nat) (text : String)
    (body body' : Except String RespData) (hu : u ≠ "") (hs : status ≠ 200)
    (h1 : http (buildRequest u q mr) = HttpResult.resp status text body)
    (h2 : http' (buildRequest u q mr) = HttpResult.resp status text body') :
    (query_videos u q mr http).result =
      "Error querying videos: " ++ Nat.repr status ++ " - " ++ text ∧
    strContains (query_videos u q mr http).result (Nat.repr status) ∧
    strContains (query_videos u q mr http).result text ∧
    query_videos u q mr http = query_videos u q mr http' := by
  have hr : (query_videos u q mr http).result =
      "Error querying videos: " ++ Nat.repr status ++ " - " ++ text := by
    simp [query_videos, tryBody, hu, h1, hs]
  refine ⟨hr,
    strContains_of_data _ _ "Error querying videos: ".data
      (" - ".data ++ text.data) ?_,
    strContains_of_data _ _
      ("Error querying videos: ".data ++ (Nat.repr status).data ++ " - ".data)
      [] ?_, ?_⟩
  · rw [hr]; simp [String.data_append, List.append_assoc]
  · rw [hr]; simp [String.data_append, List.append_assoc]
  · simp [query_videos, tryBody, hu, h1, h2, hs]

/-- Witness for C5: status 503 with body "service unavailable"; the two
oracles differ in their JSON-parse outcome (one malformed, one parsed)
yet produce identical outcomes. -/
theorem C5_non200_witness :
    (query_videos "u1" "cats" 10
        (fun _ => HttpResult.resp 503 "service unavailable"
          (Except.error "Expecting value: line 1 column 1 (char 0)"))).result =
      "Error querying videos: " ++ Nat.repr 503 ++ " - " ++ "service unavailable" ∧
    strContains
      (query_videos "u1" "cats" 10
        (fun _ => HttpResult.resp 503 "service unavailable"
          (Except.error "Expecting value: line 1 column 1 (char 0)"))).result
      (Nat.repr 503) ∧
    strContains
      (query_videos "u1" "cats" 10
        (fun _ => HttpResult.resp 503 "service unavailable"
          (Except.error "Expecting value: line 1 column 1 (char 0)"))).result
      "service unavailable" ∧
    query_videos "u1" "cats" 10
        (fun _ => HttpResult.resp 503 "service unavailable"
          (Except.error "Expecting value: line 1 column 1 (char 0)")) =
      query_videos "u1" "cats" 10
        (fun _ => HttpResult.resp 503 "service unavailable"
          (Except.ok { clips := some [] })) :=
  C5_non200 "u1" "cats" 10 _ _ 503 "service unavailable"
    (Except.error "Expecting value: line 1 column 1 (char 0)")
    (Except.ok { clips := some [] }) (by decide) (by decide) rfl rfl

theorem star_not_mem_noResultsPre : '*' ∉ noResultsPre.data := by decide

theorem star_not_mem_noResultsSuf : '*' ∉ noResultsSuf.data := by decide

theorem star_mem_rankMarker (i : Nat) : '*' ∈ (rankMarker i).data := by
  rw [rankMarker, String.data_append]
  exact List.mem_append.mpr (Or.inr (by decide))

/-- C6: for every 200 response whose `clips` list is absent or empty, the
result is the no-results message: it embeds the literal query text, and —
for any query that does not itself contain an asterisk — it contains no
rank marker of any numbered result block. -/
theorem C6_no_results (u q : String) (mr : Int)
    (http : SearchRequest → HttpResult) (text : String) (d : RespData)
    (hu : u ≠ "")
    (hh : http (buildRequest u q mr) = HttpResult.resp 200 text (Except.ok d))
    (hc : d.clips = none ∨ d.clips = some []) :
    (query_videos u q mr http).result = noResultsMsg q ∧
    strContains (query_videos u q mr http).result q ∧
    ('*' ∉ q.data →
      ∀ i : Nat, ¬ strContains (query_videos u q mr http).result (rankMarker i)) := by
  have hd : d.clips.getD [] = [] := by
    rcases hc with h | h <;> rw [h] <;> rfl
  have hr : (query_videos u q mr http).result = noResultsMsg q := by
    simp [query_videos, tryBody, hu, hh, hd, noResultsMsg, bind, Except.bind]
  refine ⟨hr, ?_, fun hq i hcon => ?_⟩
  · exact strContains_of_data _ _ noResultsPre.data noResultsSuf.data
      (by rw [hr]; simp [noResultsMsg, String.data_append, List.append_assoc])
  · have hstar : '*' ∈ (query_videos u q mr http).result.data :=
      mem_of_strContains hcon (star_mem_rankMarker i)
    rw [hr] at hstar
    simp [noResultsMsg, String.data_append] at hstar
    rcases hstar with h | h | h
    · exact star_not_mem_noResultsPre h
    · exact hq h
    · exact star_not_mem_noResultsSuf h

/-- Witness for C6 at the query "cats" and an empty clips list. -/
theorem C6_no_results_witness :
    (query_videos "u1" "cats" 10
        (fun _ => HttpResult.resp 200 "" (Except.ok { clips := some [] }))).result =
      noResultsMsg "cats" ∧
    ¬ strContains
        (query_videos "u1" "cats" 10
          (fun _ => HttpResult.resp 200 ""
            (Except.ok { clips := some [] }))).result (rankMarker 1) :=
  ⟨(C6_no_results "u1" "cats" 10 _ "" { clips := some [] } (by decide) rfl
      (Or.inr rfl)).1,
   (C6_no_results "u1" "cats" 10 _ "" { clips := some [] } (by decide) rfl
      (Or.inr rfl)).2.2 (by decide) 1⟩

theorem formatClip_wf (i : Nat) (c : Clip) (h : wellFormed c = true) :
    formatClip i c = Except.ok (blockOf i c) := by
  obtain ⟨ch, de, ex, sc, ur, vi⟩ := c
  simp only [wellFormed, Bool.and_eq_true, Option.isSome_iff_exists] at h
  obtain ⟨⟨⟨⟨⟨⟨a1, h1⟩, a2, h2⟩, a3, h3⟩, a4, h4⟩, a5, h5⟩, a6, h6⟩ := h
  subst h1 h2 h3 h4 h5 h6
  simp [formatClip, blockOf, getKey, bind, Except.bind]

theorem formatClipsFrom_ok (l : List Clip) :
    ∀ i, (∀ c ∈ l, wellFormed c = true) →
    formatClipsFrom i l = Except.ok (l.mapIdx fun j c => blockOf (i + j) c) := by
  induction l with
  | nil => intro i _; rfl
  | cons c cs ih =>
    intro i h
    have hc : wellFormed c = true := h c (by simp)
    have hcs : ∀ x ∈ cs, wellFormed x = true := fun x hx => h x (by simp [hx])
    have harith : (fun j (x : Clip) => blockOf (i + 1 + j) x) =
        (fun j x => blockOf (i + (j + 1)) x) := by
      funext j x
      congr 1
      omega
    simp [formatClipsFrom, bind, Except.bind, formatClip_wf i c hc, ih (i + 1) hcs,
      List.mapIdx_cons, harith]

theorem blockOf_rank (i : Nat) (c : Clip) :
    ∃ rest, blockOf i c = rankMarker i ++ rest := by
  refine ⟨c.score_str.getD "" ++ "**\n" ++
    "   📄 **AI Description:** " ++ c.description.getD "" ++ "\n" ++
    "   📹 **Video URL:** " ++ c.url.getD "" ++ "\n" ++
    "   ⏰ **URL Expires:** " ++ expiresDisplay (c.expires_at.getD "") ++ "\n" ++
    "   🎬 **Video ID:** " ++ idDisplay (c.video_id.getD "") ++ "\n" ++
    "   📝 **Chunk ID:** " ++ idDisplay (c.chunk_id.getD ""), ?_⟩
  simp [blockOf, rankMarker, String.append_assoc]

theorem query_success (u q : String) (mr : Int)
    (http : SearchRequest → HttpResult) (text : String) (d : RespData)
    (clips : List Clip) (hu : u ≠ "")
    (hh : http (buildRequest u q mr) = HttpResult.resp 200 text (Except.ok d))
    (hc : d.clips = some clips) (hne : clips ≠ [])
    (hwf : ∀ c ∈ clips, wellFormed c = true) :
    (query_videos u q mr http).result =
      summaryHeader clips.length q ++
        String.intercalate "\n\n"
          ((clips.take 15).mapIdx fun j c => blockOf (1 + j) c) ++
        "\n\n" ++ usageTips := by
  have hwf15 : ∀ c ∈ clips.take 15, wellFormed c = true :=
    fun c hcm => hwf c (List.take_subset 15 clips hcm)
  have hfmt := formatClipsFrom_ok (clips.take 15) 1 hwf15
  have hne' : clips.isEmpty = false := by
    cases clips with
    | nil => exact absurd rfl hne
    | cons x xs => rfl
  simp [query_videos, tryBody, hu, hh, hc, hne', hfmt, bind, Except.bind]

/-- C7: for every 200 response carrying `n ≥ 1` well-formed clips, the
returned string is the header followed by exactly `min n 15` formatted
result blocks (joined by blank lines) and the usage-tips footer; the
block at 0-based position `j` is the formatted block of input clip `j`
carrying the 1-based rank `j + 1` and opening with its rank marker —
ranks follow the input order of the clips list, no re-sorting. -/
theorem C7_result_blocks (u q : String) (mr : Int)
    (http : SearchRequest → HttpResult) (text : String) (d : RespData)
    (clips : List Clip) (hu : u ≠ "")
    (hh : http (buildRequest u q mr) = HttpResult.resp 200 text (Except.ok d))
    (hc : d.clips = some clips) (hne : clips ≠ [])
    (hwf : ∀ c ∈ clips, wellFormed c = true) :
    ∃ bs : List String,
      formatClipsFrom 1 (clips.take 15) = Except.ok bs ∧
      (query_videos u q mr http).result =
        summaryHeader clips.length q ++ String.intercalate "\n\n" bs ++
          "\n\n" ++ usageTips ∧
      bs.length = min clips.length 15 ∧
      (∀ j, j < bs.length →
        bs[j]? = (clips[j]?).map fun c => blockOf (j + 1) c) ∧
      (∀ j, j < bs.length →
        ∃ rest, bs[j]? = some (rankMarker (j + 1) ++ rest)) := by
  have hwf15 : ∀ c ∈ clips.take 15, wellFormed c = true :=
    fun c hcm => hwf c (List.take_subset 15 clips hcm)
  refine ⟨(clips.take 15).mapIdx fun j c => blockOf (1 + j) c,
    formatClipsFrom_ok (clips.take 15) 1 hwf15,
    query_success u q mr http text d clips hu hh hc hne hwf, ?_, ?_, ?_⟩
  · simp [List.length_mapIdx, List.length_take, Nat.min_comm]
  · intro j hj
    have hj' : j < min 15 clips.length := by
      simpa [List.length_mapIdx, List.length_take] using hj
    have hjc : j < clips.length := lt_of_lt_of_le hj' (Nat.min_le_right _ _)
    rw [List.getElem?_eq_getElem
          (by simpa [List.length_mapIdx, List.length_take] using hj'),
        List.getElem?_eq_getElem hjc]
    simp [List.getElem_mapIdx, List.getElem_take, Nat.add_comm]
  · intro j hj
    have hj' : j < min 15 clips.length := by
      simpa [List.length_mapIdx, List.length_take] using hj
    have hjc : j < clips.length := lt_of_lt_of_le hj' (Nat.min_le_right _ _)
    rw [List.getElem?_eq_getElem
          (by simpa [List.length_mapIdx, List.length_take] using hj')]
    obtain ⟨rest, hrest⟩ := blockOf_rank (j + 1) (clips.get ⟨j, hjc⟩)
    refine ⟨rest, ?_⟩
    simp only [List.getElem_mapIdx, List.getElem_take, Option.some.injEq]
    rw [Nat.add_comm 1 j]
    simpa [List.get_eq_getElem] using hrest

/-- Witness for C7 at a concrete two-clip response. -/
theorem C7_result_blocks_witness :
    ∃ bs : List String,
      formatClipsFrom 1
          (([sampleClip,
             { sampleClip with description := some "a dog in a park" }]).take 15) =
        Except.ok bs ∧
      (query_videos "u1" "cats" 10
          (fun _ => HttpResult.resp 200 ""
            (Except.ok { clips := some [sampleClip,
              { sampleClip with description := some "a dog in a park" }] }))).result =
        summaryHeader
            ([sampleClip,
              { sampleClip with description := some "a dog in a park" }]).length
            "cats" ++
          String.intercalate "\n\n" bs ++ "\n\n" ++ usageTips ∧
      bs.length =
        min ([sampleClip,
          { sampleClip with description := some "a dog in a park" }]).length 15 ∧
      (∀ j, j < bs.length →
        bs[j]? = (([sampleClip,
          { sampleClip with description := some "a dog in a park" }])[j]?).map
            fun c => blockOf (j + 1) c) ∧
      (∀ j, j < bs.length →
        ∃ rest, bs[j]? = some (rankMarker (j + 1) ++ rest)) :=
  C7_result_blocks "u1" "cats" 10 _ "" _ _ (by decide) rfl rfl (by decide)
    (by decide)

/-- C10: the header of a success summary reports the full count `n` of
returned clips while only `min n 15` blocks are formatted, so for
`n > 15` the header count exceeds the number of displayed blocks. -/
theorem C10_header_count (u q : String) (mr : Int)
    (http : SearchRequest → HttpResult) (text : String) (d : RespData)
    (clips : List Clip) (hu : u ≠ "")
    (hh : http (buildRequest u q mr) = HttpResult.resp 200 text (Except.ok d))
    (hc : d.clips = some clips) (hne : clips ≠ [])
    (hwf : ∀ c ∈ clips, wellFormed c = true) :
    ∃ bs rest,
      formatClipsFrom 1 (clips.take 15) = Except.ok bs ∧
      (query_videos u q mr http).result =
        headerPre ++ Nat.repr clips.length ++ headerMid ++ q ++ headerSuf ++
          rest ∧
      bs.length = min clips.length 15 ∧
      (15 < clips.length → bs.length < clips.length) := by
  have hwf15 : ∀ c ∈ clips.take 15, wellFormed c = true :=
    fun c hcm => hwf c (List.take_subset 15 clips hcm)
  refine ⟨(clips.take 15).mapIdx fun j c => blockOf (1 + j) c,
    String.intercalate "\n\n"
        ((clips.take 15).mapIdx fun j c => blockOf (1 + j) c) ++
      "\n\n" ++ usageTips,
    formatClipsFrom_ok (clips.take 15) 1 hwf15, ?_, ?_, ?_⟩
  · rw [query_success u q mr http text d clips hu hh hc hne hwf]
    simp [summaryHeader, String.append_assoc]
  · simp [List.length_mapIdx, List.length_take, Nat.min_comm]
  · intro h15
    simp [List.length_mapIdx, List.length_take]
    omega

/-- Witness for C10 at a concrete 16-clip response: the header reports 16
while only 15 blocks are formatted. -/
theorem C10_header_count_witness :
    ∃ bs rest,
      formatClipsFrom 1 ((List.replicate 16 sampleClip).take 15) =
        Except.ok bs ∧
      (query_videos "u1" "cats" 20
          (fun _ => HttpResult.resp 200 ""
            (Except.ok { clips := some (List.replicate 16 sampleClip) }))).result =
        headerPre ++ Nat.repr (List.replicate 16 sampleClip).length ++
          headerMid ++ "cats" ++ headerSuf ++ rest ∧
      bs.length = min (List.replicate 16 sampleClip).length 15 ∧
      (15 < (List.replicate 16 sampleClip).length →
        bs.length < (List.replicate 16 sampleClip).length) :=
  C10_header_count "u1" "cats" 20 _ "" _ _ (by decide) rfl rfl (by decide)
    (by decide)

/-- C8 counterexample: a `video_id` shorter than 8 characters is NOT
displayed as given — the code appends the ellipsis marker
unconditionally.  For the 3-character id "abc" the displayed value is
"abc..." (so the formatted block contains "abc..." after the Video ID
label, and contains no unmodified "abc" display). -/
theorem C8_short_id_counterexample :
    idDisplay "abc" = "abc" ++ "..." ∧
    idDisplay "abc" ≠ "abc" ∧
    strContains (blockOf 1 shortIdClip) "🎬 **Video ID:** abc...\n" ∧
    ¬ strContains (blockOf 1 shortIdClip) "**Video ID:** abc\n" :=
  ⟨by decide, by decide, by decide, by decide⟩

/-- C8 as amended: the displayed id value is always the first 8 code
points followed by the ellipsis marker; an id of length ≥ 8 shows its
first 8 characters plus the ellipsis, an id shorter than 8 characters is
shown in full but still followed by the ellipsis (not unmodified). -/
theorem C8_id_display_amended (s : String) :
    idDisplay s = pyTake s 8 ++ "..." ∧
    (8 ≤ s.data.length → (pyTake s 8).data = s.data.take 8) ∧
    (s.data.length < 8 → idDisplay s = s ++ "...") := by
  refine ⟨rfl, fun _ => rfl, fun h => ?_⟩
  unfold idDisplay pyTake
  congr 1
  rw [List.take_of_length_le (by omega)]

/-- Witness for the amended C8 at ids of length 13 and 3. -/
theorem C8_id_display_amended_witness :
    (pyTake "vid-1234-5678" 8).data = "vid-1234-5678".data.take 8 ∧
    idDisplay "abc" = "abc" ++ "..." :=
  ⟨(C8_id_display_amended "vid-1234-5678").2.1 (by decide),
   (C8_id_display_amended "abc").2.2 (by decide)⟩

/-- C9: the displayed expiry value equals the first 19 code points of
`expires_at` when the string contains the date/time separator `T`, and
equals the unmodified `expires_at` string otherwise. -/
theorem C9_expires_display (s : String) :
    ('T' ∈ s.data →
      expiresDisplay s = pyTake s 19 ∧ (pyTake s 19).data = s.data.take 19) ∧
    ('T' ∉ s.data → expiresDisplay s = s) := by
  refine ⟨fun h => ⟨?_, rfl⟩, fun h => ?_⟩ <;> simp [expiresDisplay, h]

/-- Witness for C9 at a timestamp with the separator and a string
without it. -/
theorem C9_expires_display_witness :
    expiresDisplay "2025-01-02T03:04:05.123456" =
      pyTake "2025-01-02T03:04:05.123456" 19 ∧
    expiresDisplay "in one hour" = "in one hour" :=
  ⟨((C9_expires_display "2025-01-02T03:04:05.123456").1 (by decide)).1,
   (C9_expires_display "in one hour").2 (by decide)⟩
